import Mathlib

/-!
Shallow embedding of the report scoring & deduplication engine of the
Urban-Watch server (Python sources under `app/`), together with proofs
settling the frozen claims about it.

Python floats are modelled as real numbers, Python ints as `ℤ`, Python
`None` as `Option.none`.  `math.ceil` is `Int.ceil`, `math.log1p x` is
`Real.log (1 + x)`.  Python's built-in `round(x, n)` (banker's rounding)
is modelled with Mathlib's `round` (round-half-up); the two differ only
at exact ties, which none of the claims touch — the repository uses it
purely to prettify the component values echoed back in result dicts.
-/

namespace UrbanWatch

/-- `round(x, ndigits)` on a float, as used for the display copies of the
component values in `criticality_score.py` (lines 109–115). -/
noncomputable def py_round_to (ndigits : ℕ) (x : ℝ) : ℝ :=
  (round (x * 10 ^ ndigits) : ℤ) / 10 ^ ndigits

/-- Python `int(x)` truncation toward zero (used in `impact.py` lines 150–151). -/
noncomputable def py_int (x : ℝ) : ℤ :=
  if 0 ≤ x then ⌊x⌋ else ⌈x⌉

/-! ### app/ai/criticality_score.py -/

/-- The weight dictionary `{"impact": _, "urgency": _, "reports": _}` taken by
`compute_criticality_score`. -/
structure Weights where
  impact : ℝ
  urgency : ℝ
  reports : ℝ

/-- `sum(weights.values())` (line 62). -/
def Weights.sum (w : Weights) : ℝ :=
  w.impact + w.urgency + w.reports

/-- `weights = {k: v / w_sum for k, v in weights.items()}` (line 65). -/
noncomputable def Weights.normalize (w : Weights) : Weights :=
  ⟨w.impact / w.sum, w.urgency / w.sum, w.reports / w.sum⟩

/-- `round(v, 3)` applied to every weight, for the components dict (line 115). -/
noncomputable def Weights.round3 (w : Weights) : Weights :=
  ⟨py_round_to 3 w.impact, py_round_to 3 w.urgency, py_round_to 3 w.reports⟩

/-- The default weights `{"impact": 0.6, "urgency": 0.25, "reports": 0.15}`
(line 60). -/
def defaultWeights : Weights := ⟨0.6, 0.25, 0.15⟩

/-- `normalize_urgency(age_seconds, cap_days)` (lines 9–19):
`min(1, (max(0, age_seconds) / 86400) / max(1e-9, cap_days))`. -/
noncomputable def normalize_urgency (age_seconds cap_days : ℝ) : ℝ :=
  min 1 ((max 0 age_seconds / (3600 * 24)) / max 1e-9 cap_days)

/-- `normalize_reports(count, report_cap)` (lines 21–33):
`0` for `count ≤ 0`, else `min(1, log1p(count) / max(1e-9, log1p(report_cap)))`. -/
noncomputable def normalize_reports (count : ℤ) (report_cap : ℤ) : ℝ :=
  if count ≤ 0 then 0
  else min 1 (Real.log (1 + (count : ℝ)) / max 1e-9 (Real.log (1 + (report_cap : ℝ))))

/-- Lines 80–86 of `compute_criticality_score`: `None` age means urgency 0,
otherwise `normalize_urgency(age_seconds, cap_days=30.0)`. -/
noncomputable def urgency_of (age_seconds : Option ℝ) : ℝ :=
  match age_seconds with
  | none => 0
  | some a => normalize_urgency a 30

/-- The `"components"` sub-dict of the result (lines 110–116), display-rounded. -/
structure CriticalityComponents where
  severity : ℝ
  impact_norm : ℝ
  urgency : ℝ
  reports_norm : ℝ
  weights : Weights

/-- The dict returned by `compute_criticality_score` (lines 107–117). -/
structure CriticalityResult where
  criticality : ℤ
  raw_score : ℝ
  components : CriticalityComponents

/-- Body of `compute_criticality_score` after weight validation (lines 66–117),
applied to already-normalized weights `wn`. -/
noncomputable def compute_criticality_core
    (severity impact : ℝ) (age_seconds : Option ℝ) (report_count : ℤ)
    (wn : Weights) : CriticalityResult :=
  let sev := max 0 (min 1 severity)
  let impact_norm := max 0 (min 1 (impact / 100))
  let urgency_norm := urgency_of age_seconds
  let reports_norm := normalize_reports report_count 10
  let raw_score := sev *
    (wn.impact * impact_norm + wn.urgency * urgency_norm + wn.reports * reports_norm)
  let criticality_float := raw_score * 100
  { criticality := max 1 ⌈criticality_float⌉
    raw_score := py_round_to 4 raw_score
    components :=
      { severity := py_round_to 3 sev
        impact_norm := py_round_to 4 impact_norm
        urgency := py_round_to 4 urgency_norm
        reports_norm := py_round_to 4 reports_norm
        weights := wn.round3 } }

/-- `compute_criticality_score(severity, impact, age_seconds, report_count, weights)`
(lines 35–121).  `weights=None` selects the defaults; a weight sum `≤ 0` raises
`ValueError("Weights must sum to > 0")` (lines 62–64), modelled as `Except.error`. -/
noncomputable def compute_criticality_score
    (severity impact : ℝ) (age_seconds : Option ℝ) (report_count : ℤ)
    (weights : Option Weights) : Except String CriticalityResult :=
  let w := weights.getD defaultWeights
  if w.sum ≤ 0 then .error "Weights must sum to > 0"
  else .ok (compute_criticality_core severity impact age_seconds report_count w.normalize)

/-- Modelled from the spec (claim C1 wording): the combination algorithm the
spec describes for the criticality combiner — severity adjusted as
`severity^1.5`, weights overridden to `{impact: 0.4, urgency: 0.4, reports: 0.2}`
when the raw severity exceeds 0.7, and logistic final scaling
`round(100 / (1 + exp(-5*(rawScore - 0.5))))` with a floor of 1.  The input
normalizations are the shared ones of `criticality_score.py`. -/
noncomputable def spec_criticality_score
    (severity impact : ℝ) (age_seconds : Option ℝ) (report_count : ℤ) : ℤ :=
  let sev_adj := severity ^ (1.5 : ℝ)
  let w : Weights := if severity > 0.7 then ⟨0.4, 0.4, 0.2⟩ else defaultWeights
  let impact_norm := max 0 (min 1 (impact / 100))
  let urgency_norm := urgency_of age_seconds
  let reports_norm := normalize_reports report_count 10
  let rawScore := sev_adj *
    (w.impact * impact_norm + w.urgency * urgency_norm + w.reports * reports_norm)
  max 1 (round ((100 : ℝ) / (1 + Real.exp (-5 * (rawScore - 0.5)))))

/-! ### app/ai/final.py — cross-hazard fusion (lines 118–150)

Only the pure metric-combination step of `process_image` is embedded: the
detector invocations, category choice and text generation around it are
external collaborators.  The initial assignments of lines 119–120 are dead
(every branch of the `if`/`elif`/`else` chain of lines 123–144 reassigns
both variables), so the function is exactly the branch chain.  All the
arithmetic here is rational, so ℚ is used. -/

/-- The pair `(severity_score_float, overall_confidence)` computed by the
threshold-based regime selection. -/
structure FusedMetrics where
  severity_float : ℚ
  confidence : ℚ
  deriving DecidableEq

/-- Lines 123–144 of `process_image`: fuse the pothole pair
`(pothole_conf, pothole_sev)` and the trash pair `(trash_conf, trash_sev)`. -/
def process_image_fusion (pothole_conf pothole_sev trash_conf trash_sev : ℚ) :
    FusedMetrics :=
  if (pothole_sev ≥ 0.7 ∧ pothole_conf ≥ 0.6) ∨ (trash_sev ≥ 0.7 ∧ trash_conf ≥ 0.6) then
    ⟨max pothole_sev trash_sev, max pothole_conf trash_conf⟩
  else if pothole_sev ≥ 0.4 ∧ trash_sev ≥ 0.4 then
    ⟨min ((pothole_sev + trash_sev) / 2 + 0.2) 1, (pothole_conf + trash_conf) / 2⟩
  else
    ⟨min (pothole_sev * pothole_conf + trash_sev * trash_conf) 1,
     if pothole_sev > trash_sev then pothole_conf else trash_conf⟩

/-- Which branch of the lines 123–144 chain fires: 1 for the clear-dominant
regime, 2 for co-occurring moderates, 3 for the confidence-discounted default. -/
def fusion_regime (pothole_conf pothole_sev trash_conf trash_sev : ℚ) : ℕ :=
  if (pothole_sev ≥ 0.7 ∧ pothole_conf ≥ 0.6) ∨ (trash_sev ≥ 0.7 ∧ trash_conf ≥ 0.6) then 1
  else if pothole_sev ≥ 0.4 ∧ trash_sev ≥ 0.4 then 2
  else 3

/-- Line 149 of `process_image`: `severity_score = max(1, math.ceil(severity_score_float * 100))`. -/
def severity_score_int (severity_score_float : ℚ) : ℤ :=
  max 1 ⌈severity_score_float * 100⌉

/-! ### app/ai/impact.py — `calculate_impact_score` (lines 55–163)

The two provider calls and the SQLite cache are I/O collaborators; they
enter the embedding as explicit arguments:
* `cached` — the cache lookup result (lines 65–69);
* `pop_result` — `none` when the WorldPop request raises, otherwise the
  parsed `data.sum` field (`0` when absent, line 86);
* `road_segments` — `none` when the Overpass request raises, otherwise the
  number of returned road elements (line 107). -/

/-- The result dict of `calculate_impact_score` (lines 146–154). -/
structure ImpactResult where
  lat : ℝ
  lon : ℝ
  radius_km : ℝ
  population_estimate : ℤ
  vehicle_estimate : ℤ
  impact_score : ℤ
  source : String

/-- `calculate_impact_score(lat, lon, radius_km)` (lines 55–163). -/
noncomputable def calculate_impact_score (lat lon radius_km : ℝ)
    (cached : Option ImpactResult) (pop_result : Option ℝ)
    (road_segments : Option ℕ) : ImpactResult :=
  match cached with
  | some c => { c with source := "cache" }
  | none =>
    -- population: `if not population: raise` falls back to 1200·r² (lines 77–93)
    let population : ℝ :=
      match pop_result with
      | none => 1200 * radius_km ^ 2
      | some p => if p = 0 then 1200 * radius_km ^ 2 else p
    -- vehicles = len(roads)·200/10; `if vehicles <= 0: raise` falls back to 800·r
    -- (lines 99–116)
    let vehicles : ℝ :=
      match road_segments with
      | none => 800 * radius_km
      | some n => if n = 0 then 800 * radius_km else (n : ℝ) * 200 / 10
    let area_km2 := Real.pi * radius_km ^ 2
    let pop_density := population / max area_km2 1
    let veh_density := vehicles / max area_km2 1
    let impact_score_float :=
      (0.6 * min (pop_density / 7000) 1 + 0.4 * min (veh_density / 2000) 1)
        ^ ((0.5 : ℝ)) * 100
    { lat := lat
      lon := lon
      radius_km := radius_km
      population_estimate := py_int population
      vehicle_estimate := py_int vehicles
      impact_score := max 1 ⌈impact_score_float⌉
      source := "live" }

/-! ### app/models/report.py, app/services/report_service.py -/

/-- `Location(lat, lon, address)`. -/
structure Location where
  lat : ℝ
  lon : ℝ
  address : String

/-- The stored report record (the fields written by `create_report` lines
29–42 and updated by `merge_reports` lines 251–257). -/
structure Report where
  report_id : String
  user_ids : List String
  people_reported : ℤ
  category : String
  title : String
  ai_analysis : String
  images : List String
  location : Location
  criticality_score : ℤ
  status : String

/-- The fields `merge_reports` reads from its `new_report_data` dict:
`new_report_data.get("criticality_score", 0)` and
`new_report_data.get("images", [])` (lines 243 and 247). -/
structure NewReportData where
  criticality_score : Option ℤ
  images : Option (List String)

/-- `ReportService.merge_reports(existing_report, new_report_data, new_user_id)`
(lines 238–257): the updated record written back to the store.
`list(set(existing.user_ids + [new_user_id]))` produces the distinct ids in an
unspecified order; `List.dedup` realizes one such order, and the claims only
consume the member set and its size. -/
def merge_reports (existing_report : Report) (new_report_data : NewReportData)
    (new_user_id : String) : Report :=
  let updated_user_ids := (existing_report.user_ids ++ [new_user_id]).dedup
  let updated_images := existing_report.images ++ new_report_data.images.getD []
  let people_reported : ℤ := updated_user_ids.length
  let base_criticality :=
    max existing_report.criticality_score (new_report_data.criticality_score.getD 0)
  let crowd_factor := min (people_reported * 5) 30
  let new_criticality := min 100 (base_criticality + crowd_factor)
  { existing_report with
    user_ids := updated_user_ids
    people_reported := people_reported
    images := updated_images
    criticality_score := new_criticality }

/-! ### app/api/v1/endpoints/reports.py — `report_issue` (lines 17–147)

For every accepted submission the endpoint runs the AI pipeline with
`report_count=1` and then unconditionally calls
`report_service.create_report` (lines 79–104); `find_nearby_reports` and
`merge_reports` are never invoked on this path.  The upload, AI analysis
and id generation are collaborators, so the submission arrives here with
their outputs already attached. -/

/-- One accepted submission together with the collaborator outputs
(`image_url` from storage, `ai_*` from the AI pipeline, `report_id` from
`generate_random_string`). -/
structure Submission where
  user_id : String
  latitude : ℝ
  longitude : ℝ
  address : String
  image_url : String
  report_id : String
  ai_category : String
  ai_title : String
  ai_description : String
  ai_criticality : ℤ

/-- The record stored for a submission: `report_data` of `reports.py` lines
89–100 as re-packed by `create_report` (`report_service.py` lines 29–42). -/
def report_issue_new_report (s : Submission) : Report :=
  { report_id := s.report_id
    user_ids := [s.user_id]
    people_reported := 1
    category := s.ai_category
    title := s.ai_title
    ai_analysis := s.ai_description
    images := [s.image_url]
    location := ⟨s.latitude, s.longitude, s.address⟩
    criticality_score := s.ai_criticality
    status := "waiting_for_attention" }

/-- Effect of one successful `report_issue` call on the report store
(lines 79–115): a fresh record is always inserted. -/
def report_issue (store : List Report) (s : Submission) : List Report :=
  store ++ [report_issue_new_report s]

/-- Projection helper for stating theorems: the criticality carried by a
non-error combiner result (0 on the error branch). -/
def criticalityOf : Except String CriticalityResult → ℤ
  | .ok r => r.criticality
  | .error _ => 0

/-! ### Helper lemmas -/

theorem max_eps_pos (x : ℝ) : 0 < max 1e-9 x :=
  lt_of_lt_of_le (by norm_num) (le_max_left _ _)

theorem normalize_reports_nonneg (count cap : ℤ) : 0 ≤ normalize_reports count cap := by
  unfold normalize_reports
  split
  · exact le_refl 0
  · next h =>
    refine le_min (by norm_num) (div_nonneg (Real.log_nonneg ?_) (max_eps_pos _).le)
    have : (1 : ℤ) ≤ count := by omega
    have : (1 : ℝ) ≤ (count : ℝ) := by exact_mod_cast this
    linarith

theorem normalize_reports_le_one (count cap : ℤ) : normalize_reports count cap ≤ 1 := by
  unfold normalize_reports
  split
  · norm_num
  · exact min_le_left _ _

theorem urgency_of_nonneg (age : Option ℝ) : 0 ≤ urgency_of age := by
  cases age with
  | none => exact le_refl 0
  | some a =>
    refine le_min (by norm_num) (div_nonneg (div_nonneg (le_max_left 0 a) (by norm_num))
      (max_eps_pos _).le)

theorem urgency_of_le_one (age : Option ℝ) : urgency_of age ≤ 1 := by
  cases age with
  | none => norm_num [urgency_of]
  | some a => exact min_le_left _ _

theorem defaultWeights_sum : defaultWeights.sum = 1 := by
  norm_num [Weights.sum, defaultWeights]

theorem defaultWeights_normalize : defaultWeights.normalize = defaultWeights := by
  simp only [Weights.normalize, defaultWeights_sum, div_one]

theorem defaultWeights_sum_not_nonpos : ¬ defaultWeights.sum ≤ 0 := by
  rw [defaultWeights_sum]; norm_num

/-- Normalized weights sum to 1 whenever the raw sum is positive. -/
theorem Weights.normalize_sum (w : Weights) (h : 0 < w.sum) : w.normalize.sum = 1 := by
  have hne : w.sum ≠ 0 := ne_of_gt h
  unfold Weights.normalize Weights.sum at *
  field_simp

theorem log_eleven_pos : 0 < Real.log 11 := Real.log_pos (by norm_num)

theorem eps_le_log_eleven : (1e-9 : ℝ) ≤ Real.log 11 := by
  have h2 : (0.6931471803 : ℝ) < Real.log 2 := Real.log_two_gt_d9
  have h211 : Real.log 2 ≤ Real.log 11 := Real.log_le_log (by norm_num) (by norm_num)
  linarith

theorem normalize_reports_ten : normalize_reports 10 10 = 1 := by
  unfold normalize_reports
  rw [if_neg (by norm_num)]
  have h11 : (1 : ℝ) + ((10 : ℤ) : ℝ) = 11 := by norm_num
  rw [h11, max_eq_right eps_le_log_eleven, div_self (ne_of_gt log_eleven_pos), min_self]

/-- The criticality field of the combiner core, in closed form. -/
theorem core_criticality (severity impact : ℝ) (age : Option ℝ) (count : ℤ) (wn : Weights) :
    (compute_criticality_core severity impact age count wn).criticality =
      max 1 ⌈(max 0 (min 1 severity) *
        (wn.impact * max 0 (min 1 (impact / 100)) + wn.urgency * urgency_of age +
         wn.reports * normalize_reports count 10)) * 100⌉ := rfl

/-- The display-rounded severity component of the combiner core. -/
theorem core_severity_component (severity impact : ℝ) (age : Option ℝ) (count : ℤ)
    (wn : Weights) :
    (compute_criticality_core severity impact age count wn).components.severity =
      py_round_to 3 (max 0 (min 1 severity)) := rfl

/-- With `weights=None` the combiner never errors and uses the default weights. -/
theorem compute_criticality_score_none (severity impact : ℝ) (age : Option ℝ) (count : ℤ) :
    compute_criticality_score severity impact age count none =
      Except.ok (compute_criticality_core severity impact age count
        defaultWeights.normalize) := by
  unfold compute_criticality_score
  simp only [Option.getD_none]
  rw [if_neg defaultWeights_sum_not_nonpos]

theorem py_round_to_one (n : ℕ) : py_round_to n 1 = 1 := by
  unfold py_round_to
  rw [one_mul]
  have h : ((10 : ℝ) ^ n) = (((10 ^ n : ℤ)) : ℝ) := by push_cast; ring
  rw [h, round_intCast]
  rw [div_self]
  positivity

/-! ### Claims about the deduplication & merge engine -/

/-- Claim C4: merging a submission into an existing report (both criticalities
in [1,100]) yields criticality `min(100, max(existing, new) + min(5·peopleReported, 30))`,
which is at least `max(existing, new)` and at most 100 — merging never reduces
criticality and crowd volume alone cannot exceed the cap. -/
theorem c4_merge_monotonic (existing : Report) (nd : NewReportData) (uid : String)
    (he1 : 1 ≤ existing.criticality_score) (he2 : existing.criticality_score ≤ 100)
    (hn1 : 1 ≤ nd.criticality_score.getD 0) (hn2 : nd.criticality_score.getD 0 ≤ 100) :
    (merge_reports existing nd uid).criticality_score =
      min 100 (max existing.criticality_score (nd.criticality_score.getD 0) +
        min (5 * (merge_reports existing nd uid).people_reported) 30) ∧
    max existing.criticality_score (nd.criticality_score.getD 0) ≤
      (merge_reports existing nd uid).criticality_score ∧
    (merge_reports existing nd uid).criticality_score ≤ 100 := by
  have hmem : uid ∈ (existing.user_ids ++ [uid]).dedup :=
    List.mem_dedup.mpr (by simp)
  have hlen : 0 < (existing.user_ids ++ [uid]).dedup.length :=
    List.length_pos_of_mem hmem
  have hred : (merge_reports existing nd uid).criticality_score =
      min 100 (max existing.criticality_score (nd.criticality_score.getD 0) +
        min (((existing.user_ids ++ [uid]).dedup.length : ℤ) * 5) 30) := rfl
  have hppl : (merge_reports existing nd uid).people_reported =
      ((existing.user_ids ++ [uid]).dedup.length : ℤ) := rfl
  rw [hred, hppl]
  refine ⟨?_, ?_, ?_⟩ <;> omega

/-- Claim C10: when the reporting user is already among the report's reporter
ids, the merge leaves the reporter set and `people_reported` unchanged, yet
still escalates the criticality by the crowd factor and still appends the new
image URLs. -/
theorem c10_repeat_reporter (existing : Report) (nd : NewReportData) (uid : String)
    (hmem : uid ∈ existing.user_ids) (hnd : existing.user_ids.Nodup)
    (hppl : existing.people_reported = (existing.user_ids.length : ℤ)) :
    (merge_reports existing nd uid).user_ids.toFinset = existing.user_ids.toFinset ∧
    (merge_reports existing nd uid).people_reported = existing.people_reported ∧
    (merge_reports existing nd uid).criticality_score =
      min 100 (max existing.criticality_score (nd.criticality_score.getD 0) +
        min (5 * existing.people_reported) 30) ∧
    (merge_reports existing nd uid).images = existing.images ++ nd.images.getD [] := by
  have hset : ((existing.user_ids ++ [uid]).dedup).toFinset = existing.user_ids.toFinset := by
    apply List.toFinset.ext
    intro x
    simp only [List.mem_toFinset, List.mem_dedup, List.mem_append, List.mem_singleton]
    constructor
    · rintro (hx | rfl)
      · exact hx
      · exact hmem
    · exact fun hx => Or.inl hx
  have hcount : ((existing.user_ids ++ [uid]).dedup).length = existing.user_ids.length := by
    have h1 : ((existing.user_ids ++ [uid]).dedup).length =
        ((existing.user_ids ++ [uid]).dedup).toFinset.card :=
      (List.toFinset_card_of_nodup (List.nodup_dedup _)).symm
    rw [h1, hset, List.toFinset_card_of_nodup hnd]
  have hm_user : (merge_reports existing nd uid).user_ids =
      (existing.user_ids ++ [uid]).dedup := rfl
  have hm_ppl : (merge_reports existing nd uid).people_reported =
      (((existing.user_ids ++ [uid]).dedup).length : ℤ) := rfl
  have hm_crit : (merge_reports existing nd uid).criticality_score =
      min 100 (max existing.criticality_score (nd.criticality_score.getD 0) +
        min ((((existing.user_ids ++ [uid]).dedup).length : ℤ) * 5) 30) := rfl
  refine ⟨?_, ?_, ?_, rfl⟩
  · rw [hm_user, hset]
  · rw [hm_ppl, hcount, hppl]
  · rw [hm_crit, hcount, hppl, mul_comm]

/-- Claim C2 (the code at the failing input): `report_issue` runs no
deduplication — two submissions at identical coordinates both insert a fresh
record, each with `people_reported = 1` and a single image. -/
theorem c2_no_dedup_on_submission (store : List Report) (s1 s2 : Submission)
    (hlat : s1.latitude = s2.latitude) (hlon : s1.longitude = s2.longitude) :
    (report_issue (report_issue store s1) s2).length = store.length + 2 ∧
    (report_issue_new_report s1).people_reported = 1 ∧
    (report_issue_new_report s2).people_reported = 1 ∧
    (report_issue_new_report s1).images.length = 1 ∧
    (report_issue_new_report s2).images.length = 1 := by
  refine ⟨?_, rfl, rfl, rfl, rfl⟩
  simp [report_issue]

/-- Witness for C4: merging a 60-criticality submission by a second reporter
into a 50-criticality report gives criticality 70. -/
theorem c4_witness :
    (merge_reports
      ⟨"r1", ["u1"], 1, "potholes", "t", "d", ["i1"], ⟨0, 0, "a"⟩, 50, "waiting_for_attention"⟩
      ⟨some 60, some ["i2"]⟩ "u2").criticality_score = 70 := by
  have h := c4_merge_monotonic
      ⟨"r1", ["u1"], 1, "potholes", "t", "d", ["i1"], ⟨0, 0, "a"⟩, 50, "waiting_for_attention"⟩
      ⟨some 60, some ["i2"]⟩ "u2" (by decide) (by decide) (by decide) (by decide)
  rw [h.1]
  decide

/-- Witness for C10: a repeat reporter on a two-reporter report leaves the
count at 2 but still escalates criticality from 80 to 90. -/
theorem c10_witness :
    (merge_reports
      ⟨"r1", ["u1", "u2"], 2, "potholes", "t", "d", ["i1"], ⟨0, 0, "a"⟩, 80, "waiting_for_attention"⟩
      ⟨some 40, some ["i2"]⟩ "u1").people_reported = 2 ∧
    (merge_reports
      ⟨"r1", ["u1", "u2"], 2, "potholes", "t", "d", ["i1"], ⟨0, 0, "a"⟩, 80, "waiting_for_attention"⟩
      ⟨some 40, some ["i2"]⟩ "u1").criticality_score = 90 ∧
    (merge_reports
      ⟨"r1", ["u1", "u2"], 2, "potholes", "t", "d", ["i1"], ⟨0, 0, "a"⟩, 80, "waiting_for_attention"⟩
      ⟨some 40, some ["i2"]⟩ "u1").images = ["i1", "i2"] := by
  have h := c10_repeat_reporter
      ⟨"r1", ["u1", "u2"], 2, "potholes", "t", "d", ["i1"], ⟨0, 0, "a"⟩, 80, "waiting_for_attention"⟩
      ⟨some 40, some ["i2"]⟩ "u1" (by decide) (by decide) (by decide)
  exact ⟨h.2.1, by rw [h.2.2.1]; decide, h.2.2.2⟩

/-- Witness for C2: two submissions at the same coordinates leave two stored
reports, each with one reporter and one image. -/
theorem c2_witness :
    (report_issue (report_issue []
        ⟨"u1", 0, 0, "addr", "img1", "r1", "potholes", "t1", "d1", 50⟩)
        ⟨"u2", 0, 0, "addr", "img2", "r2", "potholes", "t2", "d2", 60⟩).length =
      ([] : List Report).length + 2 ∧
    (report_issue_new_report
      ⟨"u1", 0, 0, "addr", "img1", "r1", "potholes", "t1", "d1", 50⟩).people_reported = 1 ∧
    (report_issue_new_report
      ⟨"u2", 0, 0, "addr", "img2", "r2", "potholes", "t2", "d2", 60⟩).people_reported = 1 ∧
    (report_issue_new_report
      ⟨"u1", 0, 0, "addr", "img1", "r1", "potholes", "t1", "d1", 50⟩).images.length = 1 ∧
    (report_issue_new_report
      ⟨"u2", 0, 0, "addr", "img2", "r2", "potholes", "t2", "d2", 60⟩).images.length = 1 :=
  c2_no_dedup_on_submission [] _ _ rfl rfl

/-! ### Claims about normalization and weight validation -/

/-- Claim C8: `normalize_reports` is 0 for every non-positive count and is
non-decreasing in the count (with the default cap of 10). -/
theorem c8_normalize_reports_monotone :
    (∀ count : ℤ, count ≤ 0 → normalize_reports count 10 = 0) ∧
    (∀ a b : ℤ, a ≤ b → normalize_reports a 10 ≤ normalize_reports b 10) := by
  constructor
  · intro c hc
    unfold normalize_reports
    rw [if_pos hc]
  · intro a b hab
    by_cases ha : a ≤ 0
    · rw [show normalize_reports a 10 = 0 from by unfold normalize_reports; rw [if_pos ha]]
      exact normalize_reports_nonneg b 10
    · have hb : ¬ b ≤ 0 := fun h => ha (hab.trans h)
      unfold normalize_reports
      rw [if_neg ha, if_neg hb]
      have ha1 : (1 : ℝ) ≤ (a : ℝ) := by exact_mod_cast (by omega : (1 : ℤ) ≤ a)
      have hab' : (a : ℝ) ≤ (b : ℝ) := by exact_mod_cast hab
      have hlog : Real.log (1 + (a : ℝ)) ≤ Real.log (1 + (b : ℝ)) :=
        Real.log_le_log (by linarith) (by linarith)
      exact min_le_min le_rfl ((div_le_div_iff_of_pos_right (max_eps_pos _)).mpr hlog)

/-- Witness for C8 at concrete counts. -/
theorem c8_witness :
    normalize_reports (-3) 10 = 0 ∧ normalize_reports 2 10 ≤ normalize_reports 5 10 :=
  ⟨c8_normalize_reports_monotone.1 (-3) (by norm_num),
   c8_normalize_reports_monotone.2 2 5 (by norm_num)⟩

/-- Claim C7: a weight override whose values sum to 0 or less makes
`compute_criticality_score` fail fast with the validation error (so no division
by the zero sum ever happens), while a positive-sum override is accepted and
normalized to weights that sum to exactly 1. -/
theorem c7_weight_validation (severity impact : ℝ) (age : Option ℝ) (count : ℤ)
    (w : Weights) :
    (w.sum ≤ 0 →
      compute_criticality_score severity impact age count (some w) =
        Except.error "Weights must sum to > 0") ∧
    (0 < w.sum →
      compute_criticality_score severity impact age count (some w) =
        Except.ok (compute_criticality_core severity impact age count w.normalize) ∧
      w.normalize.sum = 1) := by
  constructor
  · intro h
    unfold compute_criticality_score
    simp only [Option.getD_some]
    rw [if_pos h]
  · intro h
    refine ⟨?_, Weights.normalize_sum w h⟩
    unfold compute_criticality_score
    simp only [Option.getD_some]
    rw [if_neg (not_le.mpr h)]

/-- Witness for C7: the all-zero override errors; the override {1,1,2} is
accepted with normalized weights summing to 1. -/
theorem c7_witness :
    (compute_criticality_score 0.5 40 none 1 (some ⟨0, 0, 0⟩) =
      Except.error "Weights must sum to > 0") ∧
    (Weights.normalize ⟨1, 1, 2⟩).sum = 1 := by
  have h0 : (⟨0, 0, 0⟩ : Weights).sum ≤ 0 := by norm_num [Weights.sum]
  have h1 : (0 : ℝ) < (⟨1, 1, 2⟩ : Weights).sum := by norm_num [Weights.sum]
  exact ⟨(c7_weight_validation 0.5 40 none 1 ⟨0, 0, 0⟩).1 h0,
         ((c7_weight_validation 0.5 40 none 1 ⟨1, 1, 2⟩).2 h1).2⟩

/-! ### Claim about cross-hazard fusion -/

/-- Claim C5: fusion regime 1 fires iff at least one hazard pair has
severity ≥ 0.7 and confidence ≥ 0.6, and then the fused severity is the max of
the two input severities (hence one of them) and the fused confidence is the
max of the two input confidences. -/
theorem c5_fusion_regime1 (pc ps tc ts : ℚ) :
    (fusion_regime pc ps tc ts = 1 ↔
      ((ps ≥ 0.7 ∧ pc ≥ 0.6) ∨ (ts ≥ 0.7 ∧ tc ≥ 0.6))) ∧
    (fusion_regime pc ps tc ts = 1 →
      (process_image_fusion pc ps tc ts).severity_float = max ps ts ∧
      (process_image_fusion pc ps tc ts).confidence = max pc tc ∧
      ((process_image_fusion pc ps tc ts).severity_float = ps ∨
       (process_image_fusion pc ps tc ts).severity_float = ts)) := by
  have hiff : fusion_regime pc ps tc ts = 1 ↔
      ((ps ≥ 0.7 ∧ pc ≥ 0.6) ∨ (ts ≥ 0.7 ∧ tc ≥ 0.6)) := by
    unfold fusion_regime
    split_ifs with h1 h2
    · simpa using h1
    · simp [h1]
    · simp [h1]
  refine ⟨hiff, fun h => ?_⟩
  have hcond := hiff.mp h
  unfold process_image_fusion
  rw [if_pos hcond]
  exact ⟨rfl, rfl, max_choice ps ts⟩

/-- Witness for C5: a severe, confident pothole signal (sev 0.8, conf 0.7)
with a weak trash signal fires regime 1 and keeps the pothole values. -/
theorem c5_witness :
    fusion_regime 0.7 0.8 0.2 0.1 = 1 ∧
    (process_image_fusion 0.7 0.8 0.2 0.1).severity_float = max 0.8 0.1 ∧
    (process_image_fusion 0.7 0.8 0.2 0.1).confidence = max 0.7 0.2 := by
  have h := c5_fusion_regime1 0.7 0.8 0.2 0.1
  have h1 : fusion_regime 0.7 0.8 0.2 0.1 = 1 := h.1.mpr (by norm_num)
  exact ⟨h1, (h.2 h1).1, (h.2 h1).2.1⟩

/-! ### Claims about the criticality combiner -/

theorem clamp01_one : max 0 (min 1 (1 : ℝ)) = 1 := by
  rw [min_self]; exact max_eq_right zero_le_one

theorem clamp01_hundred : max 0 (min 1 ((100 : ℝ) / 100)) = 1 := by
  rw [show (100 : ℝ) / 100 = 1 by norm_num]; exact clamp01_one

theorem clamp01_of_one_le {s : ℝ} (h : 1 ≤ s) : max 0 (min 1 s) = 1 := by
  rw [min_eq_left h]; exact max_eq_right zero_le_one

/-- Claim C3 counterexample: the weight override
{impact: 10, urgency: -9.5, reports: 0.5} has positive sum 1 and the other
inputs are valid (severity 1, impact 100, age None, reportCount 10), yet the
returned criticality is 1050, far outside [1,100]. -/
theorem c3_counterexample :
    criticalityOf (compute_criticality_score 1 100 none 10 (some ⟨10, -9.5, 0.5⟩)) = 1050 := by
  have hsum : ¬ (⟨10, -9.5, 0.5⟩ : Weights).sum ≤ 0 := by norm_num [Weights.sum]
  have hok : compute_criticality_score 1 100 none 10 (some ⟨10, -9.5, 0.5⟩) =
      Except.ok (compute_criticality_core 1 100 none 10
        (Weights.normalize ⟨10, -9.5, 0.5⟩)) := by
    unfold compute_criticality_score
    simp only [Option.getD_some]
    rw [if_neg hsum]
  rw [hok]
  show (compute_criticality_core 1 100 none 10 (Weights.normalize ⟨10, -9.5, 0.5⟩)).criticality
    = 1050
  have hwn : Weights.normalize ⟨10, -9.5, 0.5⟩ = ⟨10, -9.5, 0.5⟩ := by
    simp only [Weights.normalize, Weights.sum]
    norm_num
  rw [core_criticality, hwn, normalize_reports_ten, clamp01_one, clamp01_hundred,
    show urgency_of none = (0 : ℝ) from rfl]
  show max 1 ⌈((1 : ℝ) * ((10 : ℝ) * 1 + (-9.5 : ℝ) * 0 + (0.5 : ℝ) * 1)) * 100⌉ = 1050
  rw [show ((1 : ℝ) * ((10 : ℝ) * 1 + (-9.5 : ℝ) * 0 + (0.5 : ℝ) * 1)) * 100 =
    ((1050 : ℤ) : ℝ) by norm_num, Int.ceil_intCast]
  decide

/-- Claim C3 (amended): for any severity, impact, age, reportCount, and weight
override with nonnegative entries and positive sum (the default weights
included), the returned criticality is an integer in [1,100]; severity=0,
impact=0, age=None, reportCount=1 yields exactly the floor value 1. -/
theorem c3_range (severity impact : ℝ) (age : Option ℝ) (count : ℤ) (w : Weights)
    (hi : 0 ≤ w.impact) (hu : 0 ≤ w.urgency) (hr : 0 ≤ w.reports) (hs : 0 < w.sum) :
    (∃ res, compute_criticality_score severity impact age count (some w) = Except.ok res ∧
       1 ≤ res.criticality ∧ res.criticality ≤ 100) ∧
    criticalityOf (compute_criticality_score 0 0 none 1 none) = 1 := by
  constructor
  · refine ⟨compute_criticality_core severity impact age count w.normalize, ?_, ?_, ?_⟩
    · unfold compute_criticality_score
      simp only [Option.getD_some]
      rw [if_neg (not_le.mpr hs)]
    · rw [core_criticality]; exact le_max_left 1 _
    · rw [core_criticality]
      set x := max 0 (min 1 (impact / 100)) with hxdef
      set y := urgency_of age with hydef
      set z := normalize_reports count 10 with hzdef
      set sev := max 0 (min 1 severity) with hsevdef
      have hx0 : 0 ≤ x := le_max_left 0 _
      have hx1 : x ≤ 1 := max_le (by norm_num) (min_le_left 1 _)
      have hy0 : 0 ≤ y := urgency_of_nonneg age
      have hy1 : y ≤ 1 := urgency_of_le_one age
      have hz0 : 0 ≤ z := normalize_reports_nonneg count 10
      have hz1 : z ≤ 1 := normalize_reports_le_one count 10
      have hsev0 : 0 ≤ sev := le_max_left 0 _
      have hsev1 : sev ≤ 1 := max_le (by norm_num) (min_le_left 1 _)
      have hwi : 0 ≤ w.normalize.impact := div_nonneg hi hs.le
      have hwu : 0 ≤ w.normalize.urgency := div_nonneg hu hs.le
      have hwr : 0 ≤ w.normalize.reports := div_nonneg hr hs.le
      have hwsum : w.normalize.impact + w.normalize.urgency + w.normalize.reports = 1 :=
        Weights.normalize_sum w hs
      have hinner0 : 0 ≤ w.normalize.impact * x + w.normalize.urgency * y +
          w.normalize.reports * z := by positivity
      have hinner1 : w.normalize.impact * x + w.normalize.urgency * y +
          w.normalize.reports * z ≤ 1 := by nlinarith
      refine max_le (by norm_num) ?_
      rw [Int.ceil_le]
      push_cast
      nlinarith
  · rw [compute_criticality_score_none]
    show (compute_criticality_core 0 0 none 1 defaultWeights.normalize).criticality = 1
    rw [core_criticality]
    rw [show max 0 (min 1 (0 : ℝ)) = 0 by
      rw [min_eq_right (by norm_num : (0 : ℝ) ≤ 1), max_self]]
    rw [zero_mul, zero_mul, Int.ceil_zero]
    decide

/-- Witness for C3 at a concrete valid input. -/
theorem c3_witness :
    (∃ res, compute_criticality_score 0.5 40 none 1 (some defaultWeights) = Except.ok res ∧
       1 ≤ res.criticality ∧ res.criticality ≤ 100) ∧
    criticalityOf (compute_criticality_score 0 0 none 1 none) = 1 :=
  c3_range 0.5 40 none 1 defaultWeights (by norm_num [defaultWeights])
    (by norm_num [defaultWeights]) (by norm_num [defaultWeights])
    (by rw [defaultWeights_sum]; norm_num)

/-- The spec-modelled combiner in closed form on the high-severity branch. -/
theorem spec_criticality_high (severity impact : ℝ) (age : Option ℝ) (count : ℤ)
    (h : severity > 0.7) :
    spec_criticality_score severity impact age count =
      max 1 (round ((100 : ℝ) / (1 + Real.exp (-5 * ((severity ^ (1.5 : ℝ)) *
        ((0.4 : ℝ) * max 0 (min 1 (impact / 100)) + (0.4 : ℝ) * urgency_of age +
         (0.2 : ℝ) * normalize_reports count 10) - 0.5))))) := by
  unfold spec_criticality_score
  rw [if_pos h]

/-- Claim C1 counterexample: at the valid input severity=1, impact=100,
age=None, reportCount=10 the code returns criticality 75, while the spec's
severity^1.5 / weight-override / logistic algorithm returns a value below 75 —
the code does not implement that algorithm. -/
theorem c1_counterexample :
    criticalityOf (compute_criticality_score 1 100 none 10 none) = 75 ∧
    spec_criticality_score 1 100 none 10 < 75 := by
  constructor
  · rw [compute_criticality_score_none]
    show (compute_criticality_core 1 100 none 10 defaultWeights.normalize).criticality = 75
    rw [core_criticality, defaultWeights_normalize, normalize_reports_ten, clamp01_one,
      clamp01_hundred, show urgency_of none = (0 : ℝ) from rfl]
    show max 1 ⌈((1 : ℝ) * ((0.6 : ℝ) * 1 + (0.25 : ℝ) * 0 + (0.15 : ℝ) * 1)) * 100⌉ = 75
    rw [show ((1 : ℝ) * ((0.6 : ℝ) * 1 + (0.25 : ℝ) * 0 + (0.15 : ℝ) * 1)) * 100 =
      ((75 : ℤ) : ℝ) by norm_num, Int.ceil_intCast]
    decide
  · rw [spec_criticality_high 1 100 none 10 (by norm_num), Real.one_rpow, clamp01_hundred,
      normalize_reports_ten, show urgency_of none = (0 : ℝ) from rfl]
    rw [show (-5 : ℝ) * ((1 : ℝ) * ((0.4 : ℝ) * 1 + (0.4 : ℝ) * 0 + (0.2 : ℝ) * 1) - 0.5) =
      -0.5 by norm_num]
    have hexp : (0.5 : ℝ) ≤ Real.exp (-0.5) := by
      have h := Real.add_one_le_exp (-0.5 : ℝ)
      linarith
    have hpos : (0 : ℝ) < 1 + Real.exp (-0.5) := by positivity
    have hround : round ((100 : ℝ) / (1 + Real.exp (-0.5))) < 75 := by
      have hval : (100 : ℝ) / (1 + Real.exp (-0.5)) ≤ 200 / 3 := by
        rw [div_le_iff₀ hpos]
        nlinarith
      rw [round_eq]
      refine Int.floor_lt.mpr ?_
      push_cast
      linarith
    exact max_lt (by norm_num) hround

/-- Claim C1 (amended): the combiner applies no severity exponent (severity is
only clamped to [0,1]), never overrides the default weights
{impact: 0.6, urgency: 0.25, reports: 0.15}, and the final scaling is the
linear ceiling `criticality = max(1, ⌈100·rawScore⌉)`, not a logistic curve. -/
theorem c1_criticality_linear (severity impact : ℝ) (age : Option ℝ) (count : ℤ) :
    criticalityOf (compute_criticality_score severity impact age count none) =
      max 1 ⌈100 * (max 0 (min 1 severity) *
        ((0.6 : ℝ) * max 0 (min 1 (impact / 100)) + (0.25 : ℝ) * urgency_of age +
         (0.15 : ℝ) * normalize_reports count 10))⌉ := by
  rw [compute_criticality_score_none]
  show (compute_criticality_core severity impact age count defaultWeights.normalize).criticality
    = _
  rw [core_criticality, defaultWeights_normalize]
  congr 1
  congr 1
  show (max 0 (min 1 severity) *
      ((0.6 : ℝ) * max 0 (min 1 (impact / 100)) + (0.25 : ℝ) * urgency_of age +
       (0.15 : ℝ) * normalize_reports count 10)) * 100 = _
  ring

/-- Claim C9: the fused severity handed to the combiner by
`AIService.process_report_image` is the 1–100 integer `severity_score` (always
≥ 1), the combiner clamps it to [0,1] so its severity component is exactly 1,
and hence the resulting criticality is independent of the detected severity. -/
theorem c9_severity_saturated :
    (∀ pc ps tc ts : ℚ,
      1 ≤ severity_score_int (process_image_fusion pc ps tc ts).severity_float) ∧
    (∀ s : ℝ, 1 ≤ s → ∀ (impact : ℝ) (age : Option ℝ) (count : ℤ),
      (compute_criticality_core s impact age count
        defaultWeights.normalize).components.severity = 1 ∧
      compute_criticality_score s impact age count none =
        compute_criticality_score 1 impact age count none) ∧
    (∀ (pc ps tc ts : ℚ) (impact : ℝ) (age : Option ℝ) (count : ℤ),
      compute_criticality_score
          ((severity_score_int (process_image_fusion pc ps tc ts).severity_float : ℤ) : ℝ)
          impact age count none =
        compute_criticality_score 1 impact age count none) := by
  have main : ∀ s : ℝ, 1 ≤ s → ∀ (impact : ℝ) (age : Option ℝ) (count : ℤ),
      (compute_criticality_core s impact age count
        defaultWeights.normalize).components.severity = 1 ∧
      compute_criticality_score s impact age count none =
        compute_criticality_score 1 impact age count none := by
    intro s hs impact age count
    have hclamp : max 0 (min 1 s) = 1 := clamp01_of_one_le hs
    constructor
    · rw [core_severity_component, hclamp, py_round_to_one]
    · rw [compute_criticality_score_none, compute_criticality_score_none]
      congr 1
      unfold compute_criticality_core
      rw [hclamp, clamp01_one]
  refine ⟨?_, main, ?_⟩
  · intro pc ps tc ts
    exact le_max_left 1 _
  · intro pc ps tc ts impact age count
    have h1 : (1 : ℝ) ≤
        ((severity_score_int (process_image_fusion pc ps tc ts).severity_float : ℤ) : ℝ) := by
      exact_mod_cast le_max_left (1 : ℤ)
        ⌈(process_image_fusion pc ps tc ts).severity_float * 100⌉
    exact (main _ h1 impact age count).2

/-- Witness for C9 at concrete inputs. -/
theorem c9_witness :
    (1 : ℤ) ≤ severity_score_int (process_image_fusion 0.9 0.8 0.1 0.1).severity_float ∧
    compute_criticality_score ((57 : ℤ) : ℝ) 40 none 1 none =
      compute_criticality_score 1 40 none 1 none :=
  ⟨c9_severity_saturated.1 0.9 0.8 0.1 0.1,
   (c9_severity_saturated.2.1 ((57 : ℤ) : ℝ) (by norm_num) 40 none 1).2⟩

/-! ### Claims about the impact estimator -/

/-- Claim C6 counterexample: with both density providers failing, the result's
source field is "live" (and in particular not the cache tag) — it is never
marked non-live. -/
theorem c6_counterexample :
    (calculate_impact_score 0 0 1 none none none).source = "live" ∧
    (calculate_impact_score 0 0 1 none none none).source ≠ "cache" :=
  ⟨rfl, by decide⟩

/-- Claim C6 (amended): with both providers failing (or returning empty data /
no road segments) each fallback applies independently — population 1200·r²,
vehicles 800·r (truncated to int) — and the impact score is deterministic and
reproducible: it is the same for any two locations at the same radius; but the
result's source field is tagged "live", not a non-live marker. -/
theorem c6_fallback (lat lon lat2 lon2 r : ℝ) (hr : 0 ≤ r) :
    (calculate_impact_score lat lon r none none none).population_estimate =
      ⌊(1200 : ℝ) * r ^ 2⌋ ∧
    (calculate_impact_score lat lon r none none none).vehicle_estimate =
      ⌊(800 : ℝ) * r⌋ ∧
    (calculate_impact_score lat lon r none none none).source = "live" ∧
    (calculate_impact_score lat lon r none none none).impact_score =
      (calculate_impact_score lat2 lon2 r none none none).impact_score ∧
    calculate_impact_score lat lon r none (some 0) (some 0) =
      calculate_impact_score lat lon r none none none := by
  refine ⟨?_, ?_, rfl, rfl, ?_⟩
  · show py_int ((1200 : ℝ) * r ^ 2) = ⌊(1200 : ℝ) * r ^ 2⌋
    unfold py_int
    rw [if_pos (by positivity)]
  · show py_int ((800 : ℝ) * r) = ⌊(800 : ℝ) * r⌋
    unfold py_int
    rw [if_pos (mul_nonneg (by norm_num) hr)]
  · unfold calculate_impact_score
    simp

/-- Witness for C6 at radius 1 km and two different locations. -/
theorem c6_witness :
    (calculate_impact_score 0 0 1 none none none).population_estimate =
      ⌊(1200 : ℝ) * 1 ^ 2⌋ ∧
    (calculate_impact_score 0 0 1 none none none).vehicle_estimate = ⌊(800 : ℝ) * 1⌋ ∧
    (calculate_impact_score 0 0 1 none none none).impact_score =
      (calculate_impact_score 5 5 1 none none none).impact_score :=
  ⟨(c6_fallback 0 0 5 5 1 (by norm_num)).1, (c6_fallback 0 0 5 5 1 (by norm_num)).2.1,
   (c6_fallback 0 0 5 5 1 (by norm_num)).2.2.2.1⟩

end UrbanWatch
